import Mathlib

/-!
# Verification of the orbit-AI live voice session engine

A shallow embedding of the live-voice logic of `src/components/LiveTutor.tsx`
and the language-selection logic of `src/App.tsx` / `src/constants.tsx`,
together with theorems settling the specification claims about them.

Conventions of the embedding:
* React `useState` / `useRef` cells become fields of an explicit state record
  (`VoiceState`); `setX(v)` becomes a functional record update, and reads of a
  state variable read the current state.
* Audio-clock timestamps and sample amplitudes are rational numbers (`ℚ`);
  the audio clock (`AudioContext.currentTime`) is passed to event handlers as
  an explicit parameter, since it advances outside the program.
* 16-bit PCM byte payloads are modelled as their decoded `Int` sample lists
  (the base64 text layer is a bijective transport wrapper and is elided).
-/

namespace Orbit

/-! ## PCM codec

Modelled from the spec: the functions `float32ToB64PCM`, `base64ToUint8Array`
and `decodeAudioData` are imported by `src/components/LiveTutor.tsx` from
`src/services/audioUtils`, a file that is not part of the sources; spec §4.1
describes the codec contract: encoding deterministically quantizes each sample
in [-1,1] to a signed 16-bit integer via round-half-away-from-zero clamped to
the representable range, and decoding is the inverse scaling back to
floating-point amplitude. -/

/-- Round half away from zero, the quantization rule named by spec §4.1. -/
def roundHalfAwayFromZero (q : ℚ) : ℤ :=
  if 0 ≤ q then ⌊q + 1/2⌋ else -⌊-q + 1/2⌋

/-- Clamp an integer to the signed 16-bit representable range. -/
def clamp16 (n : ℤ) : ℤ := max (-32768) (min 32767 n)

/-- Quantize one sample in [-1,1] to a signed 16-bit integer. -/
def encodeSample (s : ℚ) : ℤ := clamp16 (roundHalfAwayFromZero (s * 32768))

/-- Modelled from the spec: `float32ToB64PCM` from the missing
`src/services/audioUtils` — encode captured floating-point samples as 16-bit
PCM (the base64 wrapper is elided; the payload is the sample list). -/
def float32ToB64PCM (xs : List ℚ) : List ℤ := xs.map encodeSample

/-- Inverse scaling of one 16-bit sample back to floating-point amplitude. -/
def decodeSample (n : ℤ) : ℚ := (n : ℚ) / 32768

/-- A decoded playable audio buffer. -/
structure AudioBuffer where
  samples : List ℚ
  sampleRate : ℚ
  deriving DecidableEq

/-- Duration in seconds of a playable buffer. -/
def AudioBuffer.duration (b : AudioBuffer) : ℚ :=
  (b.samples.length : ℚ) / b.sampleRate

/-- Modelled from the spec: `decodeAudioData` from the missing
`src/services/audioUtils` — scale 16-bit PCM back to floating point at the
given sample rate. -/
def decodeAudioData (pcm : List ℤ) (rate : ℚ) : AudioBuffer :=
  { samples := pcm.map decodeSample, sampleRate := rate }

lemma roundHalfAwayFromZero_abs_le (q : ℚ) :
    |(roundHalfAwayFromZero q : ℚ) - q| ≤ 1/2 := by
  unfold roundHalfAwayFromZero
  rcases le_or_lt 0 q with h | h
  · rw [if_pos h]
    have h1 : ((⌊q + 1/2⌋ : ℤ) : ℚ) ≤ q + 1/2 := Int.floor_le _
    have h2 : q + 1/2 < (⌊q + 1/2⌋ : ℤ) + 1 := Int.lt_floor_add_one _
    rw [abs_le]
    constructor <;> linarith
  · rw [if_neg (not_le.mpr h)]
    have h1 : ((⌊-q + 1/2⌋ : ℤ) : ℚ) ≤ -q + 1/2 := Int.floor_le _
    have h2 : -q + 1/2 < (⌊-q + 1/2⌋ : ℤ) + 1 := Int.lt_floor_add_one _
    rw [abs_le]
    push_cast
    constructor <;> linarith

lemma encodeSample_abs_le (s : ℚ) (h1 : -1 ≤ s) (h2 : s ≤ 1) :
    |(encodeSample s : ℚ) - s * 32768| ≤ 1 := by
  have hr := roundHalfAwayFromZero_abs_le (s * 32768)
  set r := roundHalfAwayFromZero (s * 32768) with hrdef
  have hq1 : (-32768 : ℚ) ≤ s * 32768 := by linarith
  have hq2 : s * 32768 ≤ 32768 := by linarith
  have hrabs := abs_le.mp hr
  -- the rounded value never falls below the representable range
  have hlow : (-32768 : ℤ) ≤ r := by
    have h3 : (-32769 : ℚ) < (r : ℚ) := by linarith [hrabs.1]
    have h4 : (-32769 : ℤ) < r := by exact_mod_cast h3
    omega
  rcases le_or_lt r 32767 with hhi | hhi
  · -- no clamping happens
    have : encodeSample s = r := by
      unfold encodeSample clamp16
      rw [← hrdef, min_eq_right hhi, max_eq_right hlow]
    rw [this, abs_le]
    constructor <;> linarith [hrabs.1, hrabs.2]
  · -- the top of the range clamps 32768 down to 32767
    have hr32768 : r ≤ 32768 := by
      have h3 : (r : ℚ) < 32769 := by linarith [hrabs.2]
      have h4 : r < (32769 : ℤ) := by exact_mod_cast h3
      omega
    have : encodeSample s = 32767 := by
      unfold encodeSample clamp16
      rw [← hrdef, min_eq_left (by omega), max_eq_right (by omega)]
    rw [this, abs_le]
    have : (32767 : ℚ) < (r : ℚ) := by exact_mod_cast hhi
    constructor <;> push_cast <;> linarith [hrabs.1, hrabs.2]

lemma decode_encode_sample_abs_le (s : ℚ) (h1 : -1 ≤ s) (h2 : s ≤ 1) :
    |decodeSample (encodeSample s) - s| ≤ 1/32768 := by
  have h := encodeSample_abs_le s h1 h2
  unfold decodeSample
  have heq : ((encodeSample s : ℚ)) / 32768 - s
      = ((encodeSample s : ℚ) - s * 32768) / 32768 := by ring
  rw [heq, abs_div]
  rw [show |(32768 : ℚ)| = 32768 by norm_num]
  rw [div_le_div_iff₀ (by norm_num) (by norm_num)]
  linarith

/-! ## Voice session state (`src/components/LiveTutor.tsx`)

Each `useState` / `useRef` cell of the component becomes a field of
`VoiceState`; the browser objects held by the refs are modelled by small
records carrying exactly the observable state the component touches. -/

/-- A Web Audio context; `close()` on an already-closed context raises
`InvalidStateError`, which the `closed` flag lets us observe. -/
structure AudioCtx where
  closed : Bool
  deriving DecidableEq

/-- A microphone media stream: `stopped` is true once its tracks were
stopped (releasing the device). Stopping again is a no-op, not an error. -/
structure MediaStream where
  stopped : Bool
  deriving DecidableEq

/-- The script-processor node feeding captured frames outward. -/
structure ScriptProcessor where
  connected : Bool
  deriving DecidableEq

/-- The live transport session promise held in `liveSessionRef`: whether the
underlying connection is open, and the frames handed to
`sendRealtimeInput` so far. -/
structure LiveSession where
  isOpen : Bool
  sentFrames : List (List ℤ)
  deriving DecidableEq

/-- Message role as in the `Message` interface of `LiveTutor.tsx`. -/
inductive Role where
  | user
  | model
  deriving DecidableEq

/-- A transcript message (`Message` interface in `LiveTutor.tsx`). -/
structure Message where
  id : String
  role : Role
  text : String
  deriving DecidableEq

/-- A scheduled output source node: its start time on the audio clock and the
buffer it plays (`sourcesRef` entries). -/
structure AudioSource where
  startAt : ℚ
  buffer : AudioBuffer
  deriving DecidableEq

/-- The voice-mode state of the `LiveTutor` component: one field per
`useState`/`useRef` cell used by the live-voice logic. -/
structure VoiceState where
  isConnected : Bool
  isMicOn : Bool
  voiceStatus : String
  voiceError : Option String
  voiceMessages : List Message
  currentLiveUserText : String
  currentLiveModelText : String
  inputAudioContext : Option AudioCtx
  outputAudioContext : Option AudioCtx
  nextStartTime : ℚ
  sources : List AudioSource
  liveSession : Option LiveSession
  scriptProcessor : Option ScriptProcessor
  stream : Option MediaStream
  isConnecting : Bool
  deriving DecidableEq

/-- The component's initial state (the `useState`/`useRef` initial values). -/
def initialVoiceState : VoiceState where
  isConnected := false
  isMicOn := false
  voiceStatus := "Pronto para conectar"
  voiceError := none
  voiceMessages := []
  currentLiveUserText := ""
  currentLiveModelText := ""
  inputAudioContext := none
  outputAudioContext := none
  nextStartTime := 0
  sources := []
  liveSession := none
  scriptProcessor := none
  stream := none
  isConnecting := false

/-- An inbound `LiveServerMessage`, reduced to the five fields `onmessage`
reads: optional audio payload (as decoded 16-bit PCM), the two optional
transcription deltas, and the `turnComplete` / `interrupted` flags. -/
structure LiveServerMessage where
  audioData : Option (List ℤ)
  inputTranscription : Option String
  outputTranscription : Option String
  turnComplete : Bool
  interrupted : Bool
  deriving DecidableEq

/-- A message carrying only an audio chunk. -/
def audioChunkMsg (b : List ℤ) : LiveServerMessage :=
  ⟨some b, none, none, false, false⟩

/-- A message carrying only an input (user) transcription delta. -/
def inputDeltaMsg (t : String) : LiveServerMessage :=
  ⟨none, some t, none, false, false⟩

/-- A message carrying only an output (tutor) transcription delta. -/
def outputDeltaMsg (t : String) : LiveServerMessage :=
  ⟨none, none, some t, false, false⟩

/-- A message carrying only the turn-complete flag. -/
def turnCompleteMsg : LiveServerMessage := ⟨none, none, none, true, false⟩

/-- A message carrying only the interrupted flag. -/
def interruptedMsg : LiveServerMessage := ⟨none, none, none, false, true⟩

/-- `ensureAudioContexts` (LiveTutor.tsx:147-160): create either audio context
that does not exist yet (resuming a suspended context has no counterpart in
the model, which does not track the suspended state). -/
def ensureAudioContexts (st : VoiceState) : VoiceState :=
  let inCtx := match st.inputAudioContext with
    | none => some { closed := false }
    | some c => some c
  let outCtx := match st.outputAudioContext with
    | none => some { closed := false }
    | some c => some c
  { st with inputAudioContext := inCtx, outputAudioContext := outCtx }

/-- JavaScript `String.prototype.trim`: strip leading and trailing
whitespace. -/
def jsTrim (s : String) : String :=
  String.mk (((s.data.dropWhile Char.isWhitespace).reverse.dropWhile
    Char.isWhitespace).reverse)

/-- The turn-complete branch of `onmessage` (LiveTutor.tsx:244-259).
`currentLiveUserText` and `currentLiveModelText` are `useState` variables
(LiveTutor.tsx:37-38), and the `onmessage` callback reading them here was
created once inside `connectToLive` and registered with the transport: its
closure permanently captures the values those variables had at the render in
which the callback was registered. The branch therefore tests and commits the
captured snapshots `snapU` / `snapM`, not the live accumulators; the
functional log update (`setVoiceMessages(prev => ...)`) does see the current
log, and the clears (`setCurrentLiveUserText('')`) do update the live
accumulators, but only run when the corresponding snapshot trims non-empty.
`now` stands for `Date.now()`. -/
def commitTurn (snapU snapM now : String) (st : VoiceState) : VoiceState :=
  let step1 :=
    if jsTrim snapU ≠ "" then
      { st with
        voiceMessages := st.voiceMessages ++
          [{ id := now ++ "_u", role := Role.user, text := snapU }],
        currentLiveUserText := "" }
    else st
  let step2 :=
    if jsTrim snapM ≠ "" then
      { step1 with
        voiceMessages := step1.voiceMessages ++
          [{ id := now ++ "_m", role := Role.model, text := snapM }],
        currentLiveModelText := "" }
    else step1
  { step2 with voiceStatus := "Sua vez..." }

/-- The `onmessage` callback (LiveTutor.tsx:213-268), processing the four
branches in source order: audio playback scheduling, the two transcription
deltas, turn completion, and interruption. `snapU` / `snapM` are the closure
snapshots of `currentLiveUserText` / `currentLiveModelText` captured when the
callback was registered at connect time (see `commitTurn`); in the program
they are empty, since the accumulators are empty when `connectToLive` runs.
The other branches read only refs (`nextStartTimeRef`, `sourcesRef`, the
context refs), whose `.current` reads are always fresh, or use functional
state updates, so they act on the current state. `clock` is the output
context's `currentTime` when the message is handled; `now` is `Date.now()`. -/
def onmessage (snapU snapM : String) (clock : ℚ) (now : String)
    (msg : LiveServerMessage) (st : VoiceState) : VoiceState :=
  let st :=
    match msg.audioData, st.outputAudioContext with
    | some bytes, some _ =>
      let t := max st.nextStartTime clock
      let buf := decodeAudioData bytes 24000
      { st with
        nextStartTime := t + buf.duration,
        sources := st.sources ++ [{ startAt := t, buffer := buf }] }
    | _, _ => st
  let st :=
    match msg.inputTranscription with
    | some t => { st with currentLiveUserText := st.currentLiveUserText ++ t }
    | none => st
  let st :=
    match msg.outputTranscription with
    | some t =>
      { st with
        currentLiveModelText := st.currentLiveModelText ++ t,
        voiceStatus := "Falando..." }
    | none => st
  let st := if msg.turnComplete then commitTurn snapU snapM now st else st
  if msg.interrupted then
    { st with sources := [], nextStartTime := 0, voiceStatus := "Interrompido" }
  else st

/-- `connectToLive` (LiveTutor.tsx:162-289): a no-op while already connecting
or connected; otherwise ensure the audio contexts, clear the error, set the
connecting status and flag, and initiate the transport session (stored, still
unopened, in `liveSessionRef`). -/
def connectToLive (st : VoiceState) : VoiceState :=
  if st.isConnecting || st.isConnected then st
  else
    let st := ensureAudioContexts st
    { st with
      isConnecting := true
      voiceError := none
      voiceStatus := "Conectando..."
      liveSession := some { isOpen := false, sentFrames := [] } }

/-- The `onaudioprocess` capture callback (LiveTutor.tsx:320-331): encode the
captured frame; if a session promise exists, hand the frame to
`sendRealtimeInput` on it (deferred via `.then` until the promise resolves,
regardless of whether the connection is open); otherwise the frame is
discarded. Returns the new state and whether the frame was forwarded. -/
def onaudioprocess (inputData : List ℚ) (st : VoiceState) :
    VoiceState × Bool :=
  let base64PCM := float32ToB64PCM inputData
  match st.liveSession with
  | none => (st, false)
  | some s =>
    ({ st with
       liveSession := some { s with sentFrames := s.sentFrames ++ [base64PCM] } },
     true)

/-- Whether acquiring the microphone (`getUserMedia`) succeeds. -/
inductive MicPermission where
  | granted
  | denied
  deriving DecidableEq

/-- `toggleMic` (LiveTutor.tsx:291-343). Not connected: defer to
`connectToLive`. Mic on: stop the stream's tracks, drop the stream and
processor refs, mark the mic off. Mic off: request the microphone; on denial
only the user-visible error is set; on grant store the stream, and (the input
context existing) attach a script processor and mark the mic on. -/
def toggleMic (perm : MicPermission) (st : VoiceState) : VoiceState :=
  if !st.isConnected then connectToLive st
  else
    let st := ensureAudioContexts st
    if st.isMicOn then
      { st with
        stream := none
        scriptProcessor := none
        isMicOn := false
        voiceStatus := "Microfone pausado" }
    else
      match perm with
      | MicPermission.denied =>
        { st with voiceError := some "Sem acesso ao microfone" }
      | MicPermission.granted =>
        let st := { st with stream := some { stopped := false } }
        match st.inputAudioContext with
        | none => st
        | some _ =>
          { st with
            scriptProcessor := some { connected := true }
            isMicOn := true
            voiceStatus := "Ouvindo..." }

/-- `disconnectVoice` (LiveTutor.tsx:345-356): stop the stream's tracks (the
ref itself is kept), close and null both audio contexts, clear the connected
and mic flags, and empty the transcript log and both accumulators. The
transport session ref is not touched. The returned flag is true when no
close operation raised (closing an already-closed context raises
`InvalidStateError`). -/
def disconnectVoice (st : VoiceState) : VoiceState × Bool :=
  let inOk := match st.inputAudioContext with
    | none => true
    | some c => !c.closed
  let outOk := match st.outputAudioContext with
    | none => true
    | some c => !c.closed
  ({ st with
     stream := st.stream.map fun s => { s with stopped := true }
     inputAudioContext := none
     outputAudioContext := none
     isConnected := false
     isMicOn := false
     voiceMessages := []
     currentLiveUserText := ""
     currentLiveModelText := "" },
   inOk && outOk)

/-! ## Language selection (`src/App.tsx`, `src/constants.tsx`) -/

/-- The `Language` interface of `src/types` (the fields of the catalogue
entries in `src/constants.tsx`). -/
structure Language where
  id : String
  name : String
  nativeName : String
  description : String
  courseCount : Nat
  image : String
  color : String
  buttonColor : String
  voiceName : String
  deriving DecidableEq

/-- The `LANGUAGES` catalogue of `src/constants.tsx:19-64`. -/
def LANGUAGES : List Language :=
  [ { id := "it"
      name := "Italiano"
      nativeName := "Italiano"
      description := "Arte & Tradição"
      courseCount := 3
      image := "https://picsum.photos/id/1040/400/500"
      color := "bg-teal-600"
      buttonColor := "bg-emerald-500"
      voiceName := "Kore" },
    { id := "es"
      name := "Espanhol"
      nativeName := "Español"
      description := "Cultura & Conexão"
      courseCount := 0
      image := "https://picsum.photos/id/1015/400/500"
      color := "bg-orange-600"
      buttonColor := "bg-orange-500"
      voiceName := "Puck" },
    { id := "us"
      name := "Inglês"
      nativeName := "English"
      description := "Negócios & Viagens"
      courseCount := 0
      image := "https://picsum.photos/id/1068/400/500"
      color := "bg-blue-600"
      buttonColor := "bg-indigo-500"
      voiceName := "Fenrir" },
    { id := "br"
      name := "Português"
      nativeName := "Português"
      description := "Diversidade & Ritmo"
      courseCount := 0
      image := "https://picsum.photos/id/1016/400/500"
      color := "bg-green-600"
      buttonColor := "bg-green-500"
      voiceName := "Zephyr" } ]

/-- App-level state: the selected language and the URL's `lang` query
parameter. -/
structure AppState where
  selectedLanguage : Option Language
  urlLang : Option String
  deriving DecidableEq

/-- `handleStartSession` (App.tsx:25-30): select the language and push
`?lang={id}` into the URL. -/
def handleStartSession (l : Language) (st : AppState) : AppState :=
  { st with selectedLanguage := some l, urlLang := some l.id }

/-- The initialization effect (App.tsx:13-23): if the URL carries a `lang`
parameter, look it up in `LANGUAGES` by id and select it when found. -/
def initFromURL (st : AppState) : AppState :=
  match st.urlLang with
  | none => st
  | some langId =>
    match LANGUAGES.find? (fun l => l.id == langId) with
    | some foundLang => { st with selectedLanguage := some foundLang }
    | none => st

/-! ## Theorems for the claims -/

lemma decode_encode_forall₂ (x : List ℚ) (hx : ∀ s ∈ x, -1 ≤ s ∧ s ≤ 1) :
    List.Forall₂ (fun a b => |b - a| ≤ 1/32768) x
      ((decodeAudioData (float32ToB64PCM x) 24000).samples) := by
  induction x with
  | nil => simp [float32ToB64PCM, decodeAudioData]
  | cons a t ih =>
    simp only [float32ToB64PCM, decodeAudioData, List.map_cons] at *
    constructor
    · exact decode_encode_sample_abs_le a (hx a (by simp)).1 (hx a (by simp)).2
    · exact ih fun s hs => hx s (by simp [hs])

/-- C9: for every sequence of samples in [-1, 1], decoding the encoded
16-bit PCM yields samples within 1/32768 of the originals, the encoder
being round-half-away-from-zero quantization clamped to the signed 16-bit
range. -/
theorem pcm_roundtrip_bound (x : List ℚ) (hx : ∀ s ∈ x, -1 ≤ s ∧ s ≤ 1) :
    List.Forall₂ (fun a b => |b - a| ≤ 1/32768) x
      ((decodeAudioData (float32ToB64PCM x) 24000).samples) :=
  decode_encode_forall₂ x hx

/-- C9 witness: the round-trip bound at the concrete input [1/2, -1, 0]. -/
theorem pcm_roundtrip_bound_witness :
    List.Forall₂ (fun a b => |b - a| ≤ 1/32768) [(1:ℚ)/2, -1, 0]
      ((decodeAudioData (float32ToB64PCM [(1:ℚ)/2, -1, 0]) 24000).samples) :=
  pcm_roundtrip_bound _ (by
    intro s hs
    simp only [List.mem_cons, List.not_mem_nil, or_false] at hs
    rcases hs with rfl | rfl | rfl <;> norm_num)

/-- The first entry of the `LANGUAGES` catalogue. -/
def italianLang : Language :=
  { id := "it"
    name := "Italiano"
    nativeName := "Italiano"
    description := "Arte & Tradição"
    courseCount := 3
    image := "https://picsum.photos/id/1040/400/500"
    color := "bg-teal-600"
    buttonColor := "bg-emerald-500"
    voiceName := "Kore" }

/-- C10: selecting any catalogue language writes `lang={id}` to the URL, and
initializing from a URL carrying that id selects exactly that language again;
a `lang` value matching no catalogue id selects no language. -/
theorem lang_param_roundtrip :
    (∀ l ∈ LANGUAGES, ∀ st : AppState,
      (handleStartSession l st).urlLang = some l.id ∧
      (initFromURL
          ⟨none, (handleStartSession l st).urlLang⟩).selectedLanguage
        = some l) ∧
    (∀ s : String, (∀ l ∈ LANGUAGES, l.id ≠ s) →
      (initFromURL ⟨none, some s⟩).selectedLanguage = none) := by
  constructor
  · intro l hl st
    refine ⟨rfl, ?_⟩
    fin_cases hl <;> rfl
  · intro s hs
    have hfind : LANGUAGES.find? (fun l => l.id == s) = none := by
      rw [List.find?_eq_none]
      intro l hl
      simpa using hs l hl
    simp [initFromURL, hfind]

/-- C10 witness: the id round-trip at the Italian catalogue entry, and the
unknown id "de" selecting nothing. -/
theorem lang_param_roundtrip_witness :
    ((initFromURL
        ⟨none, (handleStartSession italianLang ⟨none, none⟩).urlLang⟩).selectedLanguage
      = some italianLang) ∧
    (initFromURL ⟨none, some "de"⟩).selectedLanguage = none :=
  ⟨(lang_param_roundtrip.1 italianLang (by decide) ⟨none, none⟩).2,
   lang_param_roundtrip.2 "de" (by decide)⟩

/-- C6: `connectToLive` invoked while already connecting or already connected
returns without changing any session state. -/
theorem connect_noop_when_connecting_or_connected (st : VoiceState)
    (h : st.isConnecting = true ∨ st.isConnected = true) :
    connectToLive st = st := by
  unfold connectToLive
  rcases h with h | h <;> simp [h]

/-- C6 witness: the no-op at a concrete connected state. -/
theorem connect_noop_witness :
    connectToLive { initialVoiceState with isConnected := true }
      = { initialVoiceState with isConnected := true } :=
  connect_noop_when_connecting_or_connected _ (Or.inr rfl)

/-- C8: microphone permission denied during `toggleMic` while connected with
the mic off leaves the connection up and the mic off, sets the user-visible
error, and creates no capture stream or script processor. -/
theorem mic_denied_keeps_session (st : VoiceState)
    (hconn : st.isConnected = true) (hmic : st.isMicOn = false)
    (hstream : st.stream = none) (hproc : st.scriptProcessor = none) :
    (toggleMic MicPermission.denied st).isConnected = true ∧
    (toggleMic MicPermission.denied st).isMicOn = false ∧
    (toggleMic MicPermission.denied st).voiceError
      = some "Sem acesso ao microfone" ∧
    (toggleMic MicPermission.denied st).stream = none ∧
    (toggleMic MicPermission.denied st).scriptProcessor = none := by
  unfold toggleMic
  simp [hconn, hmic, hstream, hproc, ensureAudioContexts]

/-- C8 witness: the denied-permission outcome at a concrete connected idle
state. -/
theorem mic_denied_keeps_session_witness :
    (toggleMic MicPermission.denied
        { initialVoiceState with isConnected := true }).isConnected = true ∧
    (toggleMic MicPermission.denied
        { initialVoiceState with isConnected := true }).isMicOn = false ∧
    (toggleMic MicPermission.denied
        { initialVoiceState with isConnected := true }).voiceError
      = some "Sem acesso ao microfone" ∧
    (toggleMic MicPermission.denied
        { initialVoiceState with isConnected := true }).stream = none ∧
    (toggleMic MicPermission.denied
        { initialVoiceState with isConnected := true }).scriptProcessor = none :=
  mic_denied_keeps_session _ rfl rfl rfl rfl

/-- A fully-connected session: transport open, mic stream live, both audio
contexts alive. -/
def connectedState : VoiceState :=
  { initialVoiceState with
    isConnected := true
    liveSession := some { isOpen := true, sentFrames := [] }
    stream := some { stopped := false }
    inputAudioContext := some { closed := false }
    outputAudioContext := some { closed := false } }

/-- C4: at a fully-connected session, `disconnectVoice` releases the
microphone and raises no error even when called a second time, but the live
transport session is never closed — after both calls it is still the open
session, contradicting the claim that teardown closes the transport. -/
theorem disconnect_leaves_transport_open :
    (disconnectVoice connectedState).1.stream = some { stopped := true } ∧
    (disconnectVoice connectedState).2 = true ∧
    (disconnectVoice (disconnectVoice connectedState).1).2 = true ∧
    (disconnectVoice (disconnectVoice connectedState).1).1.stream
      = some { stopped := true } ∧
    (disconnectVoice connectedState).1.liveSession
      = some { isOpen := true, sentFrames := [] } ∧
    (disconnectVoice (disconnectVoice connectedState).1).1.liveSession
      = some { isOpen := true, sentFrames := [] } :=
  ⟨rfl, rfl, rfl, rfl, rfl, rfl⟩

/-- A session whose transport promise exists but whose connection is not
open (e.g. after the connection dropped, or while a reconnect is pending). -/
def sessionNotOpenState : VoiceState :=
  { initialVoiceState with
    liveSession := some { isOpen := false, sentFrames := [] } }

/-- C7 counterexample: a frame captured while the transport is not open is
not dropped — it is handed to the session promise (buffered for delivery),
refuting the claim that such frames are neither sent later nor buffered. -/
theorem frame_sent_while_transport_not_open :
    sessionNotOpenState.liveSession.map LiveSession.isOpen = some false ∧
    (onaudioprocess [0] sessionNotOpenState).2 = true ∧
    (onaudioprocess [0] sessionNotOpenState).1.liveSession
      = some { isOpen := false, sentFrames := [float32ToB64PCM [0]] } :=
  ⟨rfl, rfl, rfl⟩

/-- C7 amended: a captured frame is silently dropped exactly when no session
promise exists (no connect was ever initiated); once a session promise
exists, every captured frame is handed to it — regardless of whether the
connection is open at capture time. -/
theorem frame_dropped_iff_no_session (f : List ℚ) (st : VoiceState) :
    (st.liveSession = none → onaudioprocess f st = (st, false)) ∧
    (∀ s, st.liveSession = some s →
      (onaudioprocess f st).2 = true ∧
      (onaudioprocess f st).1.liveSession
        = some { s with sentFrames := s.sentFrames ++ [float32ToB64PCM f] }) := by
  constructor
  · intro h
    simp [onaudioprocess, h]
  · intro s h
    simp [onaudioprocess, h]

/-- C7 amended witness: a frame captured before any connect is dropped. -/
theorem frame_dropped_iff_no_session_witness :
    onaudioprocess [0] initialVoiceState = (initialVoiceState, false) :=
  (frame_dropped_iff_no_session [0] initialVoiceState).1 rfl

/-- A state in the middle of playback: cursor ahead at 10 s, one source
scheduled, output context alive. -/
def playbackState : VoiceState :=
  { initialVoiceState with
    nextStartTime := 10
    outputAudioContext := some { closed := false }
    sources := [{ startAt := 4,
                  buffer := { samples := [0], sampleRate := 24000 } }] }

/-- C2 counterexample: handling `interrupted` at clock time 5 sets the
playback cursor to 0, not to the current clock time 5, refuting the claim
that the cursor is reset to the current clock time. -/
theorem interrupted_cursor_not_clock :
    (onmessage "" "" 5 "t" interruptedMsg playbackState).nextStartTime ≠ 5 := by
  norm_num [onmessage, interruptedMsg, playbackState]

/-- C2 amended: handling `interrupted` empties the active-source set and
resets the playback cursor to 0 (which is at or below any non-negative clock
time); a subsequent audio chunk is then scheduled at or after that reset
time, and indeed at or after the clock time of its arrival. -/
theorem interrupted_clears_and_resets (snapU snapM : String) (st : VoiceState)
    (clock clock2 : ℚ) (now now2 : String) (b : List ℤ) (octx : AudioCtx)
    (hctx : st.outputAudioContext = some octx) :
    (onmessage snapU snapM clock now interruptedMsg st).sources = [] ∧
    (onmessage snapU snapM clock now interruptedMsg st).nextStartTime = 0 ∧
    ∃ src,
      (onmessage snapU snapM clock2 now2 (audioChunkMsg b)
          (onmessage snapU snapM clock now interruptedMsg st)).sources = [src] ∧
      (onmessage snapU snapM clock now interruptedMsg st).nextStartTime ≤ src.startAt ∧
      clock2 ≤ src.startAt := by
  refine ⟨by simp [onmessage, interruptedMsg], by simp [onmessage, interruptedMsg], ?_⟩
  refine ⟨{ startAt :=
              max (onmessage snapU snapM clock now interruptedMsg st).nextStartTime clock2,
            buffer := decodeAudioData b 24000 }, ?_, le_max_left _ _, le_max_right _ _⟩
  simp [onmessage, interruptedMsg, audioChunkMsg, hctx]

/-- C2 amended witness: the interruption outcome at the concrete playback
state and a subsequent chunk at clock time 7. -/
theorem interrupted_clears_and_resets_witness :
    (onmessage "" "" 5 "t" interruptedMsg playbackState).sources = [] ∧
    (onmessage "" "" 5 "t" interruptedMsg playbackState).nextStartTime = 0 ∧
    ∃ src,
      (onmessage "" "" 7 "u" (audioChunkMsg [0])
          (onmessage "" "" 5 "t" interruptedMsg playbackState)).sources = [src] ∧
      (onmessage "" "" 5 "t" interruptedMsg playbackState).nextStartTime ≤ src.startAt ∧
      (7:ℚ) ≤ src.startAt :=
  interrupted_clears_and_resets "" "" playbackState 5 7 "t" "u" [0]
    { closed := false } rfl

/-- Process a sequence of audio-chunk events, each tagged with the clock
time at which it is handled. -/
def playChunks (now : String) (st : VoiceState)
    (evs : List (ℚ × List ℤ)) : VoiceState :=
  -- chunk-only messages never reach the turn-complete branch, so the
  -- closure snapshots are irrelevant here
  evs.foldl (fun s e => onmessage "" "" e.1 now (audioChunkMsg e.2) s) st

lemma duration_nonneg (b : List ℤ) : 0 ≤ (decodeAudioData b 24000).duration := by
  unfold AudioBuffer.duration decodeAudioData
  positivity

lemma onmessage_audioChunk_some (snapU snapM : String) (clock : ℚ)
    (now : String) (b : List ℤ)
    (st : VoiceState) (octx : AudioCtx) (h : st.outputAudioContext = some octx) :
    onmessage snapU snapM clock now (audioChunkMsg b) st =
      { st with
        nextStartTime := max st.nextStartTime clock
          + (decodeAudioData b 24000).duration,
        sources := st.sources ++
          [{ startAt := max st.nextStartTime clock,
             buffer := decodeAudioData b 24000 }] } := by
  simp [onmessage, audioChunkMsg, h]

lemma nextStartTime_le_audioChunk (snapU snapM : String) (clock : ℚ)
    (now : String) (b : List ℤ) (st : VoiceState) :
    st.nextStartTime
      ≤ (onmessage snapU snapM clock now (audioChunkMsg b) st).nextStartTime := by
  cases h : st.outputAudioContext with
  | none => simp [onmessage, audioChunkMsg, h]
  | some c =>
    rw [onmessage_audioChunk_some snapU snapM clock now b st c h]
    have := duration_nonneg b
    have := le_max_left st.nextStartTime clock
    simp only []
    linarith

lemma playChunks_nextStartTime_mono (now : String) (evs : List (ℚ × List ℤ))
    (st : VoiceState) :
    st.nextStartTime ≤ (playChunks now st evs).nextStartTime := by
  induction evs generalizing st with
  | nil => simp [playChunks]
  | cons e t ih =>
    simp only [playChunks, List.foldl_cons]
    exact le_trans (nextStartTime_le_audioChunk "" "" e.1 now e.2 st)
      (ih (onmessage "" "" e.1 now (audioChunkMsg e.2) st))

/-- C1: an audio chunk is scheduled to start at max(cursor, clock); after the
schedule the cursor equals that start time plus the chunk duration, so it
never decreased; and across any sequence of audio chunks (absent
interruption) the cursor is non-decreasing. -/
theorem audio_chunks_back_to_back (snapU snapM : String) (st : VoiceState)
    (clock : ℚ) (now : String)
    (b : List ℤ) (octx : AudioCtx) (h : st.outputAudioContext = some octx)
    (evs : List (ℚ × List ℤ)) :
    (onmessage snapU snapM clock now (audioChunkMsg b) st).sources
      = st.sources ++ [{ startAt := max st.nextStartTime clock,
                         buffer := decodeAudioData b 24000 }] ∧
    (onmessage snapU snapM clock now (audioChunkMsg b) st).nextStartTime
      = max st.nextStartTime clock + (decodeAudioData b 24000).duration ∧
    st.nextStartTime
      ≤ (onmessage snapU snapM clock now (audioChunkMsg b) st).nextStartTime ∧
    st.nextStartTime ≤ (playChunks now st evs).nextStartTime := by
  rw [onmessage_audioChunk_some snapU snapM clock now b st octx h]
  refine ⟨rfl, rfl, ?_, playChunks_nextStartTime_mono now evs st⟩
  have := duration_nonneg b
  have := le_max_left st.nextStartTime clock
  simp only []
  linarith

/-- C1 witness: the scheduling equations at the concrete playback state, a
chunk arriving at clock time 3, and a follow-up sequence of two chunks. -/
theorem audio_chunks_back_to_back_witness :
    (onmessage "" "" 3 "t" (audioChunkMsg [0, 0]) playbackState).sources
      = playbackState.sources ++
        [{ startAt := max playbackState.nextStartTime 3,
           buffer := decodeAudioData [0, 0] 24000 }] ∧
    (onmessage "" "" 3 "t" (audioChunkMsg [0, 0]) playbackState).nextStartTime
      = max playbackState.nextStartTime 3 + (decodeAudioData [0, 0] 24000).duration ∧
    playbackState.nextStartTime
      ≤ (onmessage "" "" 3 "t" (audioChunkMsg [0, 0]) playbackState).nextStartTime ∧
    playbackState.nextStartTime
      ≤ (playChunks "t" playbackState [(4, [1]), (5, [2])]).nextStartTime :=
  audio_chunks_back_to_back "" "" playbackState 3 "t" [0, 0]
    { closed := false } rfl [(4, [1]), (5, [2])]


/-- C3: the claim evaluated against the program. The `onmessage` callback was
registered at connect time with both accumulator closure snapshots empty, so
tutor deltas "Bon" then "jour" do accumulate to "Bonjour" in the live
accumulator (the deltas use functional state updates), yet the completed turn
commits no message at all and the accumulator is not cleared: the turn-complete
branch tests and commits the stale snapshots, never the accumulated text. -/
theorem turn_complete_stale_snapshot_commits_nothing :
    (onmessage "" "" 0 "t" (outputDeltaMsg "jour")
        (onmessage "" "" 0 "t" (outputDeltaMsg "Bon") initialVoiceState)).currentLiveModelText
      = "Bonjour" ∧
    (onmessage "" "" 0 "t" turnCompleteMsg
        (onmessage "" "" 0 "t" (outputDeltaMsg "jour")
          (onmessage "" "" 0 "t" (outputDeltaMsg "Bon") initialVoiceState))).voiceMessages
      = [] ∧
    (onmessage "" "" 0 "t" turnCompleteMsg
        (onmessage "" "" 0 "t" (outputDeltaMsg "jour")
          (onmessage "" "" 0 "t" (outputDeltaMsg "Bon") initialVoiceState))).currentLiveModelText
      = "Bonjour" := by
  refine ⟨?_, ?_, ?_⟩ <;> decide

/-- C5: the claim evaluated against the program. Both live accumulators hold
non-empty trimmed text at a completed turn, but the callback's connect-time
closure snapshots of both accumulators are empty, so nothing at all is
appended to the transcript log — in particular no user-before-tutor message
pair. -/
theorem turn_complete_stale_snapshot_no_pair :
    jsTrim "Oi" ≠ "" ∧ jsTrim "Olá" ≠ "" ∧
    (onmessage "" "" 0 "t" turnCompleteMsg
        { initialVoiceState with
          currentLiveUserText := "Oi", currentLiveModelText := "Olá" }).voiceMessages
      = [] ∧
    (onmessage "" "" 0 "t" turnCompleteMsg
        { initialVoiceState with
          currentLiveUserText := "Oi", currentLiveModelText := "Olá" }).currentLiveUserText
      = "Oi" := by
  refine ⟨?_, ?_, ?_, ?_⟩ <;> decide

end Orbit
